import Mathlib

/-!
Verification of the WebSocket JSON-RPC engine in `aioshelly/wsrpc.py`.

The embedding models JSON values, Python truthiness and equality as used by
the source, the `RPCCall` object, and the `WsRPC` engine state.  Stateful
methods (`_handle_frame`, the teardown part of `_rx_msgs`, the synchronous
prefix of `call`) become pure functions returning the new state together with
the list of observable events (frames sent, sink invocations, future
cancellations and resolutions, log warnings).
-/

namespace Aioshelly

/-- JSON values as produced by `msg.json()` and consumed by the engine. -/
inductive Val where
  | null
  | bool (b : Bool)
  | num (n : Int)
  | str (s : String)
  | obj (fields : List (String × Val))
  | arr (elems : List Val)
deriving Repr

mutual

/-- Structural equality of JSON values. -/
def Val.beq : Val → Val → Bool
  | .null, .null => true
  | .bool x, .bool y => x == y
  | .num n, .num m => n == m
  | .str s, .str t => s == t
  | .obj a, .obj b => Val.beqObj a b
  | .arr a, .arr b => Val.beqArr a b
  | _, _ => false

/-- Structural equality of JSON object field lists. -/
def Val.beqObj : List (String × Val) → List (String × Val) → Bool
  | [], [] => true
  | (k, v) :: t, (k2, v2) :: t2 => k == k2 && Val.beq v v2 && Val.beqObj t t2
  | _, _ => false

/-- Structural equality of JSON array element lists. -/
def Val.beqArr : List Val → List Val → Bool
  | [], [] => true
  | v :: t, v2 :: t2 => Val.beq v v2 && Val.beqArr t t2
  | _, _ => false

end

instance : BEq Val := ⟨Val.beq⟩

/-- A JSON object / Python dict: an association list with unique keys,
in insertion order (Python dicts preserve insertion order). -/
abbrev Obj := List (String × Val)

/-- Python dict lookup `d.get(k)`: `none` models Python `None` for a missing
key (first matching key wins; dicts built by the code have unique keys). -/
def Obj.get (o : Obj) (k : String) : Option Val :=
  (o.find? (fun kv => kv.1 = k)).map (·.2)

/-- Python `d[k] = v`: update in place if present, else append (dict
insertion-order semantics). -/
def Obj.set (o : Obj) (k : String) (v : Val) : Obj :=
  if (o.get k).isSome then
    o.map (fun kv => if kv.1 = k then (k, v) else kv)
  else
    o ++ [(k, v)]

/-- Python `del d[k]`: remove the key. -/
def Obj.del (o : Obj) (k : String) : Obj :=
  o.filter (fun kv => ¬ kv.1 = k)

/-- Python truthiness of a JSON value (`bool(v)`). -/
def Val.truthy : Val → Bool
  | .null => false
  | .bool b => b
  | .num n => n != 0
  | .str s => !s.isEmpty
  | .obj o => !o.isEmpty
  | .arr a => !a.isEmpty

/-- Truthiness of a possibly-missing value (`None` is falsy). -/
def truthyO : Option Val → Bool
  | none => false
  | some v => v.truthy

/-- `frame.get(k)` filtered through Python truthiness, as used by the walrus
patterns `if peer_src := frame.get("src")`, `if method := frame.get("method")`
and by `if frame_id:`: yields the value only when it is present and truthy. -/
def tget (o : Obj) (k : String) : Option Val :=
  match o.get k with
  | some v => if v.truthy then some v else none
  | none => none

/-- Python `==` on JSON scalars: numbers and booleans compare by numeric value
(`True == 1`); other cross-type comparisons are `False`; containers compare
structurally (sufficient here: the code only compares ids and route tags,
which are scalars on the wire). -/
def pyEq (a b : Val) : Bool :=
  match a, b with
  | .bool x, .num m => (if x then (1 : Int) else 0) == m
  | .num n, .bool y => n == (if y then (1 : Int) else 0)
  | x, y => x == y

/-- Render an `Option` route tag into a frame slot (`None` becomes JSON null). -/
def optVal : Option Val → Val
  | none => .null
  | some v => v

/-- State of an `asyncio.Future` resolution slot (`RPCCall.resolve`):
pending, resolved with a frame via `set_result`, or cancelled. -/
inductive FutureState where
  | pending
  | resolved (frame : Obj)
  | cancelled
deriving Repr

/-- `RouteData` (src/dst) dataclass.  The annotations say `str | None`; at
runtime `dst` holds whatever truthy JSON value an inbound frame carried in
`src`, so the fields are modelled as optional JSON values. -/
structure RouteData where
  src : Option Val
  dst : Option Val
deriving Repr

/-- `RPCCall`: one outbound call.  `resolve` is the single-assignment
future; `auth` starts as the empty dict `{}`. -/
structure RPCCall where
  call_id : Int
  method : String
  params : Option Obj
  src : Option Val
  dst : Option Val
  resolve : FutureState
  auth : Val
deriving Repr

/-- `RPCCall.__init__`: copies the ids and route tags, sets `auth = {}`,
and when `params` is truthy (non-`None`, non-empty) and contains the key
`"auth"`, moves that value into `self.auth` and deletes it from `params`
(`del params["auth"]` mutates the caller's own dict; the `params` field of
the result is that same shared dict after the mutation). -/
def RPCCall.init (call_id : Int) (method : String) (params : Option Obj)
    (route : RouteData) : RPCCall :=
  let base : RPCCall :=
    { call_id := call_id, method := method, params := params,
      src := route.src, dst := route.dst,
      resolve := .pending, auth := .obj [] }
  match params with
  | some p =>
    if p.isEmpty then base
    else
      match p.get "auth" with
      | some a => { base with auth := a, params := some (p.del "auth") }
      | none => base
  | none => base

/-- `RPCCall.request_frame`: `{"id", "method", "src"}`, then `auth` if the
extracted credential is truthy, then `params` and `dst` when not `None`. -/
def RPCCall.request_frame (c : RPCCall) : Obj :=
  let msg : Obj := [("id", .num c.call_id), ("method", .str c.method),
                    ("src", optVal c.src)]
  let msg := if c.auth.truthy then msg ++ [("auth", c.auth)] else msg
  let msg := match c.params with
    | some p => msg ++ [("params", .obj p)]
    | none => msg
  match c.dst with
  | some d => msg ++ [("dst", d)]
  | none => msg

/-- The transport handle (`aiohttp.ClientWebSocketResponse`): only its
`closed` flag is observed by the engine logic under study. -/
structure WsClient where
  closed : Bool
deriving Repr

/-- `WsRPC` engine state (fields keep the source names minus the leading
underscore).  `calls` is the Call Registry, an insertion-ordered dict from
integer call id to pending `RPCCall`. -/
structure WsRPC where
  auth : Obj
  client : Option WsClient
  calls : List (Int × RPCCall)
  call_id : Int
  route : RouteData
deriving Repr

/-- `WsRPC.connected` property: a client exists and is not closed. -/
def WsRPC.connected (s : WsRPC) : Bool :=
  match s.client with
  | some c => !c.closed
  | none => false

/-- Observable effects of the engine: a frame handed to `_send_json` (or
scheduled via `_handle_call`), an invocation of the notification sink
`_on_notification(method, params)`, a `Future.cancel()` / `set_result` on a
registered call's slot, a `close()` of the transport, and log warnings. -/
inductive Event where
  | send (frame : Obj)
  | notify (method : Val) (params : Val)
  | cancel (id : Int)
  | set_result (id : Int) (frame : Obj)
  | closeTransport
  | logWarning (tag : String)
deriving Repr

/-- The rejection frame sent by `WsRPC._handle_call` for a peer-initiated
call: echoes the request id, stamps the local route tag, and carries the
fixed `{"code": 500, "message": "Not Implemented"}` error. -/
def WsRPC.handle_call_frame (s : WsRPC) (frame_id : Val) : Obj :=
  [("id", frame_id), ("src", optVal s.route.src),
   ("error", .obj [("code", .num 500), ("message", .str "Not Implemented")])]

/-- Opening of `WsRPC._handle_frame` (lines 186-191): a truthy `src` tag
overwrites `route.dst`, logging a warning when a different tag was already
recorded; a missing or falsy `src` changes nothing. -/
def WsRPC.route_step (s : WsRPC) (frame : Obj) : WsRPC × List Event :=
  match tget frame "src" with
  | some peer_src =>
    let warn :=
      match s.route.dst with
      | some d =>
        if pyEq peer_src d then [] else [Event.logWarning "Remote src changed"]
      | none => []
    ({ s with route := { s.route with dst := some peer_src } }, warn)
  | none => (s, [])

/-- Classification tail of `WsRPC._handle_frame` (lines 193-218), by truthy
`method` / truthy `id`: peer call (reply with the 500 rejection),
notification (invoke the sink), response (pop the registry entry and
`set_result` unless the slot was cancelled; warn on an unknown id), or
invalid frame (warn). -/
def WsRPC.dispatch_step (s1 : WsRPC) (frame : Obj) : WsRPC × List Event :=
  match tget frame "method" with
  | some mth =>
    let params := frame.get "params"
    match tget frame "id" with
    | some fid => (s1, [Event.send (s1.handle_call_frame fid)])
    | none => (s1, [Event.notify mth (optVal params)])
  | none =>
    match tget frame "id" with
    | some fid =>
      match s1.calls.find? (fun kv => pyEq fid (.num kv.1)) with
      | none => (s1, [Event.logWarning "Response for an unknown request id"])
      | some kv =>
        let calls := s1.calls.eraseP (fun kv => pyEq fid (.num kv.1))
        match kv.2.resolve with
        | .cancelled => ({ s1 with calls := calls }, [])
        | _ => ({ s1 with calls := calls }, [Event.set_result kv.1 frame])
    | none => (s1, [Event.logWarning "Invalid frame"])

/-- `WsRPC._handle_frame`: the route bookkeeping followed by frame
classification, with the emitted events in source order. -/
def WsRPC.handle_frame (s : WsRPC) (frame : Obj) : WsRPC × List Event :=
  let r := s.route_step frame
  let d := r.1.dispatch_step frame
  (d.1, r.2 ++ d.2)

/-- Modelled from the spec: `NOTIFY_WS_CLOSED` from `aioshelly/const.py`
(not under `src/`), the distinguished "connection closed" notification tag
passed to the sink on teardown, written `sink("connection-closed", null)`
in the spec. -/
def NOTIFY_WS_CLOSED : String := "connection-closed"

/-- Teardown tail of `WsRPC._rx_msgs` (after the receive loop exits):
cancel every registered call's resolution slot, clear the registry, close
the transport when not already closed, clear the connection handle, and
invoke the sink with the connection-closed notification.  The source calls
`self._on_notification(NOTIFY_WS_CLOSED)` with a single argument; the
sink's `params` parameter defaults to null per the collaborator interface
(the sink's implementation is outside `src/`).  `none` models the
`assert self._client` failing (impossible while the loop runs). -/
def WsRPC.rx_stop (s : WsRPC) : Option (WsRPC × List Event) :=
  match s.client with
  | none => none
  | some cl =>
    let cancelEvs := s.calls.map (fun kv => Event.cancel kv.1)
    let closeEvs := if cl.closed then [] else [Event.closeTransport]
    some ({ s with calls := [], client := none },
          cancelEvs ++ closeEvs ++ [Event.notify (.str NOTIFY_WS_CLOSED) .null])

/-- Outcome of the synchronous prefix of `WsRPC.call` (lines 281-291):
either the not-connected `RuntimeError`, or the registered call together
with the new engine state and the transmitted frame. -/
inductive CallStart where
  | notConnected
  | started (s : WsRPC) (call : RPCCall) (frame : Obj)
deriving Repr

/-- Credential injection in `WsRPC.call` (lines 284-288): when a
credential is installed, replace a falsy `params` (None or `{}`) by a
fresh `{}` and add the credential under `"auth"` unless the caller already
supplied that key.  Mutates the caller's dict when it was truthy. -/
def WsRPC.inject_auth (sauth : Obj) (params : Option Obj) : Option Obj :=
  if sauth.isEmpty then params
  else
    let p : Obj :=
      match params with
      | none => []
      | some p0 => if p0.isEmpty then [] else p0
    if (Obj.get p "auth").isSome then some p
    else some (Obj.set p "auth" (.obj sauth))

/-- Synchronous prefix of `WsRPC.call`: raise not-connected when
`self._client is None` (and only then); inject the installed credential
into `params`; allocate the next id; construct the `RPCCall` (which
extracts `auth` out of `params`); register it; and send its request
frame. -/
def WsRPC.call_start (s : WsRPC) (method : String) (params : Option Obj) :
    CallStart :=
  match s.client with
  | none => .notConnected
  | some _ =>
    let params := WsRPC.inject_auth s.auth params
    let id := s.call_id + 1
    let call := RPCCall.init id method params s.route
    let s' := { s with call_id := id, calls := s.calls ++ [(id, call)] }
    .started s' call call.request_frame

/-- The transmitted frame of a started call (`None` when the not-connected
error was raised instead). -/
def CallStart.frame? : CallStart → Option Obj
  | .started _ _ f => some f
  | .notConnected => none

/-- The `params` attribute of the constructed `RPCCall` — the caller's own
dict after `RPCCall.__init__` ran (`None` when not connected).  Python
aliasing: when the caller passed a truthy dict, this is that same object,
after any injection and extraction mutated it. -/
def CallStart.callParams? : CallStart → Option (Option Obj)
  | .started _ c _ => some c.params
  | .notConnected => none

/-- The credential that ends up attached to a constructed call: the
caller-supplied `params["auth"]` when that key is present (it wins over
the installed credential), otherwise the installed credential when one is
set, otherwise the falsy `{}`.  Characterization used to state the frame
shape; proved equal to what `inject_auth` + `RPCCall.__init__` compute. -/
def effAuth (sauth : Obj) (params : Option Obj) : Val :=
  match params with
  | some p =>
    match Obj.get p "auth" with
    | some a => a
    | none => if sauth.isEmpty then .obj [] else .obj sauth
  | none => if sauth.isEmpty then .obj [] else .obj sauth

/-- The `params` attribute a constructed call ends up with: the supplied
dict minus any `"auth"` key; `None` stays `None` unless a credential was
injected, in which case the fresh dict is emptied back to `{}` by the
extraction.  Characterization proved equal to the composed code path. -/
def effParams (sauth : Obj) (params : Option Obj) : Option Obj :=
  match params with
  | some p => some (Obj.del p "auth")
  | none => if sauth.isEmpty then none else some []

/-- Python runtime errors raised by subscripting. -/
inductive PyErr where
  | keyError
  | typeError
deriving Repr, DecidableEq

/-- Python `v[k]` with a string key: a dict yields the value or `KeyError`;
any non-mapping raises `TypeError`. -/
def pySubscript (v : Val) (k : String) : Except PyErr Val :=
  match v with
  | .obj o =>
    match Obj.get o k with
    | some x => .ok x
    | none => .error .keyError
  | _ => .error .typeError

/-- How `WsRPC.call` terminates once the response frame is available. -/
inductive CallResult where
  | ok (v : Val)
  | jsonrpcError (code : Val) (message : Val)
  | badResponse
  | uncaughtTypeError
deriving Repr

/-- Tail of `WsRPC.call` (lines 303-311): `"result" in resp` (presence, not
truthiness) returns the value; otherwise evaluate
`resp["error"]["code"], resp["error"]["message"]` left to right — a
`KeyError` anywhere is caught and turned into the malformed-response
`RPCError`, while a `TypeError` (the `error` field present but not a
mapping) escapes the `except KeyError` handler uncaught. -/
def process_response (resp : Obj) : CallResult :=
  match resp.get "result" with
  | some r => .ok r
  | none =>
    match pySubscript (.obj resp) "error" with
    | .error .keyError => .badResponse
    | .error .typeError => .uncaughtTypeError
    | .ok e =>
      match pySubscript e "code" with
      | .error .keyError => .badResponse
      | .error .typeError => .uncaughtTypeError
      | .ok c =>
        match pySubscript e "message" with
        | .error .keyError => .badResponse
        | .error .typeError => .uncaughtTypeError
        | .ok m => .jsonrpcError c m

/-- UTF-8 encoding of one character, arithmetically (`message.encode("utf-8")`). -/
def utf8EncodeChar (c : Char) : List Nat :=
  let n := c.toNat
  if n < 128 then [n]
  else if n < 2048 then [192 + n / 64, 128 + n % 64]
  else if n < 65536 then [224 + n / 4096, 128 + (n / 64) % 64, 128 + n % 64]
  else [240 + n / 262144, 128 + (n / 4096) % 64, 128 + (n / 64) % 64, 128 + n % 64]

/-- UTF-8 byte sequence of a string. -/
def utf8Encode (s : String) : List Nat :=
  (s.data.map utf8EncodeChar).flatten

/-- Truncation to a 32-bit word. -/
def w32 (x : Nat) : Nat := x % 4294967296

/-- 32-bit right rotation by `n` (for `n ≤ 32`), written arithmetically. -/
def rotr32 (n x : Nat) : Nat := w32 (x / 2 ^ n + x % 2 ^ n * 2 ^ (32 - n))

/-- SHA-256 round constants (fractional parts of cube roots of the first
64 primes). -/
def sha256K : List Nat :=
  [1116352408, 1899447441, 3049323471, 3921009573,
   961987163, 1508970993, 2453635748, 2870763221,
   3624381080, 310598401, 607225278, 1426881987,
   1925078388, 2162078206, 2614888103, 3248222580,
   3835390401, 4022224774, 264347078, 604807628,
   770255983, 1249150122, 1555081692, 1996064986,
   2554220882, 2821834349, 2952996808, 3210313671,
   3336571891, 3584528711, 113926993, 338241895,
   666307205, 773529912, 1294757372, 1396182291,
   1695183700, 1986661051, 2177026350, 2456956037,
   2730485921, 2820302411, 3259730800, 3345764771,
   3516065817, 3600352804, 4094571909, 275423344,
   430227734, 506948616, 659060556, 883997877,
   958139571, 1322822218, 1537002063, 1747873779,
   1955562222, 2024104815, 2227730452, 2361852424,
   2428436474, 2756734187, 3204031479, 3329325298]

/-- SHA-256 initial hash state. -/
def sha256H0 : List Nat :=
  [1779033703, 3144134277, 1013904242, 2773480762,
   1359893119, 2600822924, 528734635, 1541459225]

/-- `n` bytes of `x`, most significant first. -/
def bigEndianBytes : Nat → Nat → List Nat
  | 0, _ => []
  | n + 1, x => bigEndianBytes n (x / 256) ++ [x % 256]

/-- SHA-256 padding: append `0x80`, zero bytes, and the 64-bit big-endian
bit length, reaching a multiple of 64 bytes. -/
def sha256Pad (msg : List Nat) : List Nat :=
  let L := msg.length
  let zeros := (64 - (L + 9) % 64) % 64
  msg ++ [128] ++ List.replicate zeros 0 ++ bigEndianBytes 8 (8 * L)

/-- Big-endian 32-bit words of a byte list. -/
def toWords : List Nat → List Nat
  | a :: b :: c :: d :: rest =>
    (a * 16777216 + b * 65536 + c * 256 + d) :: toWords rest
  | _ => []

/-- SHA-256 small sigma 0. -/
def ssig0 (x : Nat) : Nat := rotr32 7 x ^^^ rotr32 18 x ^^^ x / 2 ^ 3

/-- SHA-256 small sigma 1. -/
def ssig1 (x : Nat) : Nat := rotr32 17 x ^^^ rotr32 19 x ^^^ x / 2 ^ 10

/-- SHA-256 big Sigma 0. -/
def bsig0 (x : Nat) : Nat := rotr32 2 x ^^^ rotr32 13 x ^^^ rotr32 22 x

/-- SHA-256 big Sigma 1. -/
def bsig1 (x : Nat) : Nat := rotr32 6 x ^^^ rotr32 11 x ^^^ rotr32 25 x

/-- SHA-256 choice function (bitwise, on 32-bit words). -/
def sha256Ch (e f g : Nat) : Nat := (e &&& f) ^^^ ((e ^^^ 4294967295) &&& g)

/-- SHA-256 majority function. -/
def sha256Maj (a b c : Nat) : Nat := (a &&& b) ^^^ (a &&& c) ^^^ (b &&& c)

/-- Extend the 16-word message schedule by `n` further words. -/
def extendW : Nat → List Nat → List Nat
  | 0, w => w
  | n + 1, w =>
    let t := w32 (ssig1 (w.getD (w.length - 2) 0) + w.getD (w.length - 7) 0 +
                  ssig0 (w.getD (w.length - 15) 0) + w.getD (w.length - 16) 0)
    extendW n (w ++ [t])

/-- One SHA-256 compression round on the 8-word working state. -/
def sha256Round (k wi : Nat) : List Nat → List Nat
  | [a, b, c, d, e, f, g, h] =>
    let t1 := w32 (h + bsig1 e + sha256Ch e f g + k + wi)
    let t2 := w32 (bsig0 a + sha256Maj a b c)
    [w32 (t1 + t2), a, b, c, w32 (d + t1), e, f, g]
  | st => st

/-- SHA-256 compression of one 64-byte block into the hash state. -/
def sha256Compress (h : List Nat) (block : List Nat) : List Nat :=
  let w := extendW 48 (toWords block)
  let st := List.foldl (fun st kw => sha256Round kw.1 kw.2 st) h (sha256K.zip w)
  List.zipWith (fun x y => w32 (x + y)) h st

/-- Split a byte list into 64-byte blocks (structural recursion on a fuel
bound so that the definition reduces inside the kernel). -/
def chunks64Go : Nat → List Nat → List (List Nat)
  | 0, _ => []
  | _, [] => []
  | fuel + 1, l => l.take 64 :: chunks64Go fuel (l.drop 64)

/-- Split a byte list into 64-byte blocks. -/
def chunks64 (l : List Nat) : List (List Nat) :=
  chunks64Go l.length l

/-- SHA-256 digest bytes of a byte message. -/
def sha256Bytes (msg : List Nat) : List Nat :=
  let h := (chunks64 (sha256Pad msg)).foldl sha256Compress sha256H0
  (h.map (bigEndianBytes 4)).flatten

/-- Lowercase hexadecimal digit. -/
def hexDigit (n : Nat) : Char :=
  if n < 10 then Char.ofNat (48 + n) else Char.ofNat (87 + n)

/-- Lowercase hexadecimal rendering of a byte list (`hexdigest()`). -/
def bytesToHex (bs : List Nat) : String :=
  String.mk ((bs.map (fun b => [hexDigit (b / 16), hexDigit (b % 16)])).flatten)

/-- `hex_hash` (wsrpc.py lines 78-82): hex representation of the SHA-256
hash of the UTF-8 encoding of a string, lowercase. -/
def hex_hash (message : String) : String :=
  bytesToHex (sha256Bytes (utf8Encode message))

/-- Credential computation inside `WsRPC.connect` (lines 138-157): `ha1`
over the fixed username `"admin"`, the challenge realm and the password;
`ha2` over the fixed placeholder `"dummy_method:dummy_uri"`; `nc` defaulted
to `1` when the challenge omits it; the response digest over the
colon-joined fields; and the resulting auth dict.  The challenge fields
enter the f-strings by their textual rendering, so `realm` and `nonce` are
taken as strings and `nc`/`cnonce` as decimal integers. -/
def connect_auth (password realm nonce : String) (nc : Option Int)
    (cnonce : Nat) : Obj :=
  let username := "admin"
  let ha1 := hex_hash (username ++ ":" ++ realm ++ ":" ++ password)
  let ha2 := hex_hash "dummy_method:dummy_uri"
  let ncv : Int := nc.getD 1
  let hashed := hex_hash (ha1 ++ ":" ++ nonce ++ ":" ++ toString ncv ++ ":" ++
                          toString cnonce ++ ":auth:" ++ ha2)
  [("realm", .str realm), ("username", .str "admin"), ("nonce", .str nonce),
   ("cnonce", .num cnonce), ("response", .str hashed),
   ("algorithm", .str "SHA-256")]

/-- Spec formula: `ha1` is the SHA-256 hex digest of
`"admin:" + realm + ":" + secret`. -/
def spec_ha1 (realm secret : String) : String :=
  hex_hash ("admin:" ++ realm ++ ":" ++ secret)

/-- Spec formula: `ha2` is the SHA-256 hex digest of the fixed placeholder
`"dummy_method:dummy_uri"`. -/
def spec_ha2 : String :=
  hex_hash "dummy_method:dummy_uri"

/-- Spec formula: `response = hash(ha1 + ":" + nonce + ":" + nc + ":" +
cnonce + ":auth:" + ha2)`. -/
def spec_response (secret realm nonce : String) (nc : Int) (cnonce : Nat) :
    String :=
  hex_hash (spec_ha1 realm secret ++ ":" ++ nonce ++ ":" ++ toString nc ++
            ":" ++ toString cnonce ++ ":auth:" ++ spec_ha2)

/-- Is this event a `set_result` on some call's resolution slot? -/
def Event.isSetResult : Event → Bool
  | .set_result .. => true
  | _ => false

/-- Is this event a `Future.cancel()` on some call's resolution slot? -/
def Event.isCancel : Event → Bool
  | .cancel _ => true
  | _ => false

/-- Is this event an outbound frame transmission? -/
def Event.isSend : Event → Bool
  | .send _ => true
  | _ => false

/-- Is this event an invocation of the notification sink? -/
def Event.isNotify : Event → Bool
  | .notify .. => true
  | _ => false

/-- Is this event a `close()` of the transport? -/
def Event.isClose : Event → Bool
  | .closeTransport => true
  | _ => false

/-- Is this event the `Remote src changed` route-tag warning? -/
def Event.isSrcWarn : Event → Bool
  | .logWarning t => t == "Remote src changed"
  | _ => false

/-- Fresh engine state built by `WsRPC.__init__`: no credential, no client,
empty registry, counter at 0, local route tag `"aios-<id(self)>"`, no peer
tag. -/
def WsRPC.init (objId : Nat) : WsRPC :=
  { auth := [], client := none, calls := [], call_id := 0,
    route := { src := some (.str ("aios-" ++ toString objId)), dst := none } }

/-- Concrete pending call with id 1 (witness fixture). -/
def wCallA : RPCCall :=
  { call_id := 1, method := "Shelly.GetDeviceInfo", params := none,
    src := some (.str "aios-1"), dst := none,
    resolve := .pending, auth := .obj [] }

/-- Concrete pending call with id 2 (witness fixture). -/
def wCallB : RPCCall :=
  { call_id := 2, method := "Shelly.GetStatus", params := none,
    src := some (.str "aios-1"), dst := none,
    resolve := .pending, auth := .obj [] }

/-- Concrete engine state with an open client and two pending calls
(witness fixture). -/
def wState : WsRPC :=
  { auth := [], client := some { closed := false },
    calls := [(1, wCallA), (2, wCallB)], call_id := 2,
    route := { src := some (.str "aios-1"), dst := none } }

/-- Concrete response frame for call id 2 (witness fixture). -/
def wFrame : Obj :=
  [("id", .num 2), ("src", .str "shellyplus1-a8032ab12345"),
   ("result", .obj [("ison", .bool true)])]

/-- Concrete engine state whose transport object still exists but has its
closed flag set (witness fixture for the not-connected guard). -/
def wClosedState : WsRPC :=
  { auth := [], client := some { closed := true }, calls := [], call_id := 0,
    route := { src := some (.str "aios-1"), dst := none } }

/-- Concrete installed credential (witness fixture). -/
def wCred : Obj := [("realm", .str "shelly1"), ("username", .str "admin")]

/-- Concrete engine state with an installed credential, an open client and
a learned peer tag (witness fixture). -/
def wAuthState : WsRPC :=
  { auth := wCred, client := some { closed := false }, calls := [],
    call_id := 0,
    route := { src := some (.str "aios-1"), dst := some (.str "shelly-1") } }

/-! ## Dict lemmas -/

/-- A key is absent exactly when no field carries it. -/
lemma get_eq_none_iff (p : Obj) (k : String) :
    Obj.get p k = none ↔ ∀ kv ∈ p, kv.1 ≠ k := by
  simp [Obj.get, List.find?_eq_none]

/-- `del` removes the key. -/
lemma get_del (p : Obj) (k : String) : Obj.get (Obj.del p k) k = none := by
  rw [get_eq_none_iff]
  intro kv hkv
  have := List.of_mem_filter hkv
  simpa using this

/-- Deleting an absent key is the identity. -/
lemma del_absent (p : Obj) (k : String) (h : Obj.get p k = none) :
    Obj.del p k = p := by
  rw [Obj.del, List.filter_eq_self]
  intro kv hkv
  simpa using (get_eq_none_iff p k).mp h kv hkv

/-- Setting an absent key appends the binding. -/
lemma set_absent (p : Obj) (k : String) (v : Val) (h : Obj.get p k = none) :
    Obj.set p k v = p ++ [(k, v)] := by
  simp [Obj.set, h]

/-- Looking up a key appended after fields that lack it finds it. -/
lemma get_append_absent (p : Obj) (k : String) (v : Val)
    (h : Obj.get p k = none) :
    Obj.get (p ++ [(k, v)]) k = some v := by
  have hf : p.find? (fun kv => kv.1 = k) = none := by
    cases hfind : p.find? (fun kv => kv.1 = k) with
    | none => rfl
    | some kv => simp [Obj.get, hfind] at h
  simp [Obj.get, List.find?_append, hf, List.find?]

/-- Deleting the key it introduced undoes an append. -/
lemma del_append (p : Obj) (k : String) (v : Val) :
    Obj.del (p ++ [(k, v)]) k = Obj.del p k := by
  simp [Obj.del, List.filter_append]

/-- The composition of credential injection (`call`, lines 284-288) and
extraction (`RPCCall.__init__`, lines 57-60) yields exactly the effective
credential and effective params. -/
lemma init_after_inject (sauth : Obj) (params : Option Obj) (id : Int)
    (method : String) (route : RouteData) :
    RPCCall.init id method (WsRPC.inject_auth sauth params) route =
      { call_id := id, method := method,
        params := effParams sauth params,
        src := route.src, dst := route.dst,
        resolve := .pending, auth := effAuth sauth params } := by
  by_cases hA : sauth.isEmpty
  · cases params with
    | none =>
      simp [WsRPC.inject_auth, hA, RPCCall.init, effParams, effAuth]
    | some p =>
      by_cases hp : p.isEmpty
      · have hp' : p = [] := by simpa using hp
        subst hp'
        simp [WsRPC.inject_auth, hA, RPCCall.init, effParams, effAuth,
              Obj.del, Obj.get, List.find?]
      · cases hauth : Obj.get p "auth" with
        | some a =>
          simp [WsRPC.inject_auth, hA, RPCCall.init, hp, hauth, effParams,
                effAuth]
        | none =>
          simp [WsRPC.inject_auth, hA, RPCCall.init, hp, hauth, effParams,
                effAuth, del_absent p "auth" hauth]
  · have hAe : sauth ≠ [] := by simpa using hA
    cases params with
    | none =>
      simp [WsRPC.inject_auth, hA, Obj.set, Obj.get, List.find?,
            RPCCall.init, effParams, effAuth, Obj.del]
    | some p =>
      by_cases hp : p.isEmpty
      · have hp' : p = [] := by simpa using hp
        subst hp'
        simp [WsRPC.inject_auth, hA, Obj.set, Obj.get, List.find?,
              RPCCall.init, effParams, effAuth, Obj.del]
      · cases hauth : Obj.get p "auth" with
        | some a =>
          simp [WsRPC.inject_auth, hA, hp, hauth, RPCCall.init, effParams,
                effAuth]
        | none =>
          rw [WsRPC.inject_auth]
          simp only [hA, if_false, Bool.false_eq_true]
          simp only [hp, hauth, Option.isSome_none, if_false,
            set_absent p "auth" (.obj sauth) hauth, Bool.false_eq_true]
          have hne : (p ++ [("auth", Val.obj sauth)]).isEmpty = false := by
            simp [List.isEmpty_iff]
          rw [RPCCall.init]
          simp [hne, get_append_absent p "auth" (.obj sauth) hauth,
            del_append, effParams, effAuth, hauth, hA]

/-! ## Registry lemmas -/

lemma pyEq_num (n m : Int) : pyEq (.num n) (.num m) = (n == m) := rfl

/-- With pairwise-distinct registry keys, looking up a registered id finds
exactly its entry. -/
lemma find_key {l : List (Int × RPCCall)} {n : Int} {c : RPCCall}
    (hd : l.Pairwise (fun a b => a.1 ≠ b.1)) (hm : (n, c) ∈ l) :
    l.find? (fun kv => pyEq (.num n) (.num kv.1)) = some (n, c) := by
  induction l with
  | nil => simp at hm
  | cons a tl ih =>
    rcases List.mem_cons.mp hm with h | h
    · subst h
      simp [List.find?_cons, pyEq_num]
    · have hane : a.1 ≠ n := by
        have := (List.pairwise_cons.mp hd).1 (n, c) h
        exact fun he => this (by simp [he])
      have hp : (pyEq (.num n) (.num a.1)) = false := by
        simp [pyEq_num]
        exact fun he => hane he.symm
      simp [List.find?_cons, hp, ih (List.pairwise_cons.mp hd).2 h]

/-- With pairwise-distinct registry keys, `dict.pop` (the `eraseP` of the
matching entry) is the same as filtering the key out. -/
lemma eraseP_key {l : List (Int × RPCCall)} {n : Int}
    (hd : l.Pairwise (fun a b => a.1 ≠ b.1)) :
    l.eraseP (fun kv => pyEq (.num n) (.num kv.1)) =
      l.filter (fun kv => kv.1 != n) := by
  induction l with
  | nil => rfl
  | cons a tl ih =>
    by_cases h : a.1 = n
    · have htl : ∀ kv ∈ tl, kv.1 ≠ n := by
        intro kv hkv he
        exact (List.pairwise_cons.mp hd).1 kv hkv (h.trans he.symm)
      have hp : (pyEq (.num n) (.num a.1)) = true := by
        simp [pyEq_num, h]
      have hq : (a.1 != n) = false := by simp [h]
      have hself : tl.filter (fun kv => kv.1 != n) = tl := by
        rw [List.filter_eq_self]
        intro kv hkv
        simpa using htl kv hkv
      simp [List.eraseP_cons, List.filter_cons, hp, hq, hself]
    · have hp : (pyEq (.num n) (.num a.1)) = false := by
        simp [pyEq_num]
        exact fun he => h he.symm
      have hq : (a.1 != n) = true := by simpa using h
      simp [List.eraseP_cons, List.filter_cons, hp, hq,
            ih (List.pairwise_cons.mp hd).2]

/-- With pairwise-distinct registry keys, a registered id occurs exactly
once. -/
lemma countP_key {l : List (Int × RPCCall)} {n : Int} {c : RPCCall}
    (hd : l.Pairwise (fun a b => a.1 ≠ b.1)) (hm : (n, c) ∈ l) :
    l.countP (fun kv => kv.1 == n) = 1 := by
  induction l with
  | nil => simp at hm
  | cons a tl ih =>
    rcases List.mem_cons.mp hm with h | h
    · subst h
      have htl : ∀ kv ∈ tl, kv.1 ≠ n :=
        fun kv hkv => fun he =>
          (List.pairwise_cons.mp hd).1 kv hkv (by simp [he])
      rw [List.countP_cons_of_pos]
      · have : tl.countP (fun kv => kv.1 == n) = 0 := by
          rw [List.countP_eq_zero]
          intro kv hkv
          simpa using htl kv hkv
        simp [this]
      · simp
    · have hane : a.1 ≠ n := by
        have := (List.pairwise_cons.mp hd).1 (n, c) h
        exact fun he => this (by simp [he])
      rw [List.countP_cons_of_neg, ih (List.pairwise_cons.mp hd).2 h]
      simpa using hane

/-- The route bookkeeping step touches only `route.dst`. -/
lemma route_step_state (s : WsRPC) (frame : Obj) :
    (s.route_step frame).1.calls = s.calls ∧
    (s.route_step frame).1.route.src = s.route.src ∧
    (s.route_step frame).1.client = s.client ∧
    (s.route_step frame).1.auth = s.auth ∧
    (s.route_step frame).1.call_id = s.call_id := by
  cases h : tget frame "src" <;> simp [WsRPC.route_step, h]

/-- The route bookkeeping step emits at most the src-changed warning. -/
lemma route_step_events (s : WsRPC) (frame : Obj) :
    (s.route_step frame).2 = [] ∨
    (s.route_step frame).2 = [Event.logWarning "Remote src changed"] := by
  cases h : tget frame "src" with
  | none => exact Or.inl (by simp [WsRPC.route_step, h])
  | some v =>
    cases hd : s.route.dst with
    | none => exact Or.inl (by simp [WsRPC.route_step, h, hd])
    | some d =>
      cases hpe : pyEq v d with
      | true => exact Or.inl (by simp [WsRPC.route_step, h, hd, hpe])
      | false => exact Or.inr (by simp [WsRPC.route_step, h, hd, hpe])

/-- Dispatch of a response frame whose truthy id is registered and whose
slot is still pending: pop that entry and `set_result` on it. -/
lemma dispatch_response (s1 : WsRPC) (frame : Obj) (n : Int) (c : RPCCall)
    (hdist : s1.calls.Pairwise (fun a b => a.1 ≠ b.1))
    (hmem : (n, c) ∈ s1.calls)
    (hpending : c.resolve = .pending)
    (htid : tget frame "id" = some (.num n))
    (htm : tget frame "method" = none) :
    s1.dispatch_step frame =
      ({ s1 with calls := s1.calls.filter (fun kv => kv.1 != n) },
       [Event.set_result n frame]) := by
  simp only [WsRPC.dispatch_step, htm, htid, find_key hdist hmem,
    eraseP_key hdist, hpending]

/-- Dispatch of a peer-initiated call (truthy `method` and truthy `id`):
exactly the 500 rejection send, no state change. -/
lemma dispatch_call (s1 : WsRPC) (frame : Obj) (mv fid : Val)
    (htm : tget frame "method" = some mv)
    (htid : tget frame "id" = some fid) :
    s1.dispatch_step frame = (s1, [Event.send (s1.handle_call_frame fid)]) := by
  simp only [WsRPC.dispatch_step, htm, htid]

/-- The classification step never changes the route state and never emits
the src-changed warning (its warnings carry different tags). -/
lemma dispatch_route_and_warn (s1 : WsRPC) (frame : Obj) :
    (s1.dispatch_step frame).1.route = s1.route ∧
    (s1.dispatch_step frame).2.filter Event.isSrcWarn = [] := by
  cases htm : tget frame "method" with
  | some mv =>
    cases htid : tget frame "id" with
    | some fid =>
      simp only [WsRPC.dispatch_step, htm, htid]
      exact ⟨by trivial, by trivial⟩
    | none =>
      simp only [WsRPC.dispatch_step, htm, htid]
      exact ⟨by trivial, by trivial⟩
  | none =>
    cases htid : tget frame "id" with
    | none =>
      simp only [WsRPC.dispatch_step, htm, htid]
      exact ⟨by trivial, by trivial⟩
    | some fid =>
      cases hf : s1.calls.find? (fun kv => pyEq fid (.num kv.1)) with
      | none =>
        simp only [WsRPC.dispatch_step, htm, htid, hf]
        exact ⟨by trivial, by trivial⟩
      | some kv =>
        cases hr : kv.2.resolve with
        | pending =>
          simp only [WsRPC.dispatch_step, htm, htid, hf, hr]
          exact ⟨by trivial, by trivial⟩
        | resolved f =>
          simp only [WsRPC.dispatch_step, htm, htid, hf, hr]
          exact ⟨by trivial, by trivial⟩
        | cancelled =>
          simp only [WsRPC.dispatch_step, htm, htid, hf, hr]
          exact ⟨by trivial, by trivial⟩

/-! ## Claim theorems -/

/-- C1: correlation is purely by id.  For any registry contents with
distinct ids — whatever the order the calls were issued in — delivering a
response frame bearing id `n` (no `method` field, truthy id) pops exactly
the entry with key `n`, performs exactly one `set_result`, namely with that
frame on that call's slot, cancels nothing, and leaves every other entry
(its resolution slot included) untouched in the registry. -/
theorem c1_correlation_by_id
    (s : WsRPC) (frame : Obj) (n : Int) (c : RPCCall)
    (hdist : s.calls.Pairwise (fun a b => a.1 ≠ b.1))
    (hmem : (n, c) ∈ s.calls)
    (hpending : c.resolve = .pending)
    (hid : Obj.get frame "id" = some (.num n))
    (hn : n ≠ 0)
    (hmethod : Obj.get frame "method" = none) :
    ((s.handle_frame frame).1.calls = s.calls.filter (fun kv => kv.1 != n)) ∧
    ((s.handle_frame frame).2.filter Event.isSetResult =
      [Event.set_result n frame]) ∧
    ((s.handle_frame frame).2.filter Event.isCancel = []) := by
  have htid : tget frame "id" = some (.num n) := by
    simp [tget, hid, Val.truthy, hn]
  have htm : tget frame "method" = none := by
    simp [tget, hmethod]
  have hs1 := route_step_state s frame
  have hdisp := dispatch_response (s.route_step frame).1 frame n c
      (by rw [hs1.1]; exact hdist) (by rw [hs1.1]; exact hmem)
      hpending htid htm
  have hev := route_step_events s frame
  refine ⟨?_, ?_, ?_⟩
  · simp only [WsRPC.handle_frame, hdisp]
    simp [hs1.1]
  · simp only [WsRPC.handle_frame, hdisp, List.filter_append]
    rcases hev with h | h <;> simp [h, Event.isSetResult]
  · simp only [WsRPC.handle_frame, hdisp, List.filter_append]
    rcases hev with h | h <;> simp [h, Event.isCancel]

/-- Witness for C1: two pending calls with ids 1 and 2; the response
bearing id 2 resolves exactly call 2. -/
theorem c1_correlation_by_id_witness :
    ((wState.handle_frame wFrame).1.calls =
      wState.calls.filter (fun kv => kv.1 != 2)) ∧
    ((wState.handle_frame wFrame).2.filter Event.isSetResult =
      [Event.set_result 2 wFrame]) ∧
    ((wState.handle_frame wFrame).2.filter Event.isCancel = []) :=
  c1_correlation_by_id wState wFrame 2 wCallB
    (by simp [wState, List.pairwise_cons])
    (List.mem_cons_of_mem _ (List.mem_cons_self _ _))
    rfl rfl (by decide) rfl

/-- Counterexample to C2: in the state where a transport object still
exists but its closed flag is set, `call()` does not fail with the
not-connected error (the guard tests only `self._client is None`); it
proceeds to register and transmit. -/
theorem c2_closed_client_counterexample :
    wClosedState.connected = false ∧
    ¬ (wClosedState.call_start "Shelly.GetStatus" none =
        CallStart.notConnected) := by
  refine ⟨rfl, ?_⟩
  intro h
  simp [wClosedState, WsRPC.call_start] at h

/-- C2 (amended): `call()` fails immediately with the not-connected
`RuntimeError` exactly when no transport object exists (`self._client is
None`); a transport object whose closed flag is set does not trigger the
guard. -/
theorem c2_not_connected_guard (s : WsRPC) (method : String)
    (params : Option Obj) :
    (s.call_start method params = CallStart.notConnected) ↔
      s.client = none := by
  cases h : s.client with
  | none => simp [WsRPC.call_start, h]
  | some c => simp [WsRPC.call_start, h]

/-- Counterexample to C5: a response whose `error` field is present but not
a mapping (here the number 5) contains neither a `result` field nor a
well-formed `error` field, yet `call()` does not fail with the
malformed-response error: subscripting the non-mapping raises a
`TypeError`, which the `except KeyError` handler does not catch. -/
theorem c5_error_not_mapping_counterexample :
    process_response [("error", .num 5)] = CallResult.uncaughtTypeError ∧
    ¬ (process_response [("error", .num 5)] = CallResult.badResponse) := by
  refine ⟨rfl, ?_⟩
  intro h
  simp [process_response, pySubscript, Obj.get, List.find?] at h

/-- C5 (amended): on resolution, a present `result` field is returned; an
`error` mapping with `code` and `message` yields the remote-RPC error with
exactly that code and message; a missing `error` field, or an `error`
mapping lacking `code` or `message`, yields the malformed-response error;
but an `error` field that is present and not a mapping makes a `TypeError`
escape `call()` uncaught instead of the malformed-response error. -/
theorem c5_resolution_processing (resp : Obj) :
    (∀ r, Obj.get resp "result" = some r → process_response resp = .ok r) ∧
    (∀ e code msg, Obj.get resp "result" = none →
      Obj.get resp "error" = some (.obj e) →
      Obj.get e "code" = some code → Obj.get e "message" = some msg →
      process_response resp = .jsonrpcError code msg) ∧
    (Obj.get resp "result" = none → Obj.get resp "error" = none →
      process_response resp = .badResponse) ∧
    (∀ e, Obj.get resp "result" = none →
      Obj.get resp "error" = some (.obj e) →
      (Obj.get e "code" = none ∨ Obj.get e "message" = none) →
      process_response resp = .badResponse) ∧
    (∀ v, Obj.get resp "result" = none → Obj.get resp "error" = some v →
      (∀ o, v ≠ .obj o) → process_response resp = .uncaughtTypeError) := by
  refine ⟨?_, ?_, ?_, ?_, ?_⟩
  · intro r hr
    simp [process_response, hr]
  · intro e code msg hres herr hcode hmsg
    simp [process_response, pySubscript, hres, herr, hcode, hmsg]
  · intro hres herr
    simp [process_response, pySubscript, hres, herr]
  · intro e hres herr hmiss
    rcases hmiss with hc | hm
    · simp [process_response, pySubscript, hres, herr, hc]
    · cases hcode : Obj.get e "code" with
      | none => simp [process_response, pySubscript, hres, herr, hcode]
      | some c => simp [process_response, pySubscript, hres, herr, hcode, hm]
  · intro v hres herr hno
    cases v with
    | obj o => exact absurd rfl (hno o)
    | null => simp [process_response, pySubscript, hres, herr]
    | bool b => simp [process_response, pySubscript, hres, herr]
    | num m => simp [process_response, pySubscript, hres, herr]
    | str t => simp [process_response, pySubscript, hres, herr]
    | arr a => simp [process_response, pySubscript, hres, herr]

/-- Witness for C5 (amended), at a concrete 401 error response. -/
theorem c5_resolution_processing_witness :
    process_response
      [("id", .num 1),
       ("error", .obj [("code", .num 401), ("message", .str "Unauthorized")])]
      = .jsonrpcError (.num 401) (.str "Unauthorized") :=
  (c5_resolution_processing
      [("id", .num 1),
       ("error", .obj [("code", .num 401),
                       ("message", .str "Unauthorized")])]).2.1
    [("code", .num 401), ("message", .str "Unauthorized")]
    (.num 401) (.str "Unauthorized") rfl rfl rfl rfl

/-- Counterexample to C6: the frame `{"id": 0, "method": "Foo"}` has both a
`method` field and an `id` field, yet the engine invokes the notification
sink and sends no rejection frame — `if frame_id:` tests truthiness, and
`0` is falsy. -/
theorem c6_id_zero_counterexample :
    ((wState.handle_frame [("id", .num 0), ("method", .str "Foo")]).2 =
      [Event.notify (.str "Foo") .null]) ∧
    ((wState.handle_frame [("id", .num 0), ("method", .str "Foo")]).2.filter
      Event.isSend = []) :=
  ⟨rfl, rfl⟩

/-- C6 (amended): for every inbound frame with a truthy `method` field and
a truthy `id` field, the engine emits exactly one outbound frame — the
rejection `{"id": <request id>, "src": <local route tag>, "error":
{"code": 500, "message": "Not Implemented"}}` echoing the request id —
never invokes the notification sink, and leaves the Call Registry
untouched. -/
theorem c6_peer_call_rejection (s : WsRPC) (frame : Obj) (mv idv : Val)
    (hm : Obj.get frame "method" = some mv) (hmt : mv.truthy = true)
    (hid : Obj.get frame "id" = some idv) (hit : idv.truthy = true) :
    ((s.handle_frame frame).2.filter Event.isSend =
      [Event.send [("id", idv), ("src", optVal s.route.src),
        ("error", .obj [("code", .num 500),
                        ("message", .str "Not Implemented")])]]) ∧
    ((s.handle_frame frame).2.filter Event.isNotify = []) ∧
    ((s.handle_frame frame).1.calls = s.calls) := by
  have htm : tget frame "method" = some mv := by simp [tget, hm, hmt]
  have htid : tget frame "id" = some idv := by simp [tget, hid, hit]
  have hs1 := route_step_state s frame
  have hd := dispatch_call (s.route_step frame).1 frame mv idv htm htid
  have hev := route_step_events s frame
  refine ⟨?_, ?_, ?_⟩
  · simp only [WsRPC.handle_frame, hd, List.filter_append]
    rcases hev with h | h <;>
      simp [h, Event.isSend, WsRPC.handle_call_frame, hs1.2.1]
  · simp only [WsRPC.handle_frame, hd, List.filter_append]
    rcases hev with h | h <;> simp [h, Event.isNotify]
  · simp only [WsRPC.handle_frame, hd]
    exact hs1.1

/-- Witness for C6 (amended): the peer call `{"id": 7, "method": "Foo"}`
on a concrete state yields exactly the 500 rejection. -/
theorem c6_peer_call_rejection_witness :
    ((wState.handle_frame [("id", .num 7), ("method", .str "Foo")]).2.filter
      Event.isSend =
      [Event.send [("id", .num 7), ("src", optVal wState.route.src),
        ("error", .obj [("code", .num 500),
                        ("message", .str "Not Implemented")])]]) ∧
    ((wState.handle_frame [("id", .num 7), ("method", .str "Foo")]).2.filter
      Event.isNotify = []) ∧
    ((wState.handle_frame [("id", .num 7), ("method", .str "Foo")]).1.calls =
      wState.calls) :=
  c6_peer_call_rejection wState [("id", .num 7), ("method", .str "Foo")]
    (.str "Foo") (.num 7) rfl rfl rfl rfl

/-- C8: route-tag bookkeeping.  A truthy inbound `src` tag always
overwrites the recorded peer tag (last value wins); the src-changed
warning is logged exactly when a different tag was already recorded; the
handler is a total function, so a tag change never raises or stops the
loop. -/
theorem c8_peer_tag_bookkeeping (s : WsRPC) (frame : Obj) (v : Val)
    (hsrc : Obj.get frame "src" = some v) (hvt : v.truthy = true) :
    ((s.handle_frame frame).1.route.dst = some v) ∧
    (s.route.dst = none →
      (s.handle_frame frame).2.filter Event.isSrcWarn = []) ∧
    (∀ d, s.route.dst = some d → pyEq v d = true →
      (s.handle_frame frame).2.filter Event.isSrcWarn = []) ∧
    (∀ d, s.route.dst = some d → pyEq v d = false →
      (s.handle_frame frame).2.filter Event.isSrcWarn =
        [Event.logWarning "Remote src changed"]) := by
  have htsrc : tget frame "src" = some v := by simp [tget, hsrc, hvt]
  have hdr := dispatch_route_and_warn (s.route_step frame).1 frame
  refine ⟨?_, ?_, ?_, ?_⟩
  · simp only [WsRPC.handle_frame]
    rw [hdr.1]
    simp [WsRPC.route_step, htsrc]
  · intro hd
    simp only [WsRPC.handle_frame, List.filter_append]
    rw [hdr.2]
    simp [WsRPC.route_step, htsrc, hd]
  · intro d hd hpe
    simp only [WsRPC.handle_frame, List.filter_append]
    rw [hdr.2]
    simp [WsRPC.route_step, htsrc, hd, hpe]
  · intro d hd hpe
    simp only [WsRPC.handle_frame, List.filter_append]
    rw [hdr.2]
    simp [WsRPC.route_step, htsrc, hd, hpe, Event.isSrcWarn]

/-- Witness for C8: a first src tag is recorded without a warning. -/
theorem c8_peer_tag_bookkeeping_witness :
    ((wState.handle_frame [("src", .str "shelly-xyz")]).1.route.dst =
      some (.str "shelly-xyz")) ∧
    ((wState.handle_frame [("src", .str "shelly-xyz")]).2.filter
      Event.isSrcWarn = []) :=
  ⟨(c8_peer_tag_bookkeeping wState [("src", .str "shelly-xyz")]
      (.str "shelly-xyz") rfl rfl).1,
   (c8_peer_tag_bookkeeping wState [("src", .str "shelly-xyz")]
      (.str "shelly-xyz") rfl rfl).2.1 rfl⟩

/-- C9: classification tests truthiness, not presence.  The frame
`{"id": 0, "method": "Foo"}` is dispatched to the notification sink (no
rejection); a response-shaped frame with id 0 is logged as an invalid
frame and discarded with no state change; a `src` of `""` never updates
the peer tag. -/
theorem c9_truthiness (s : WsRPC) :
    (s.handle_frame [("id", .num 0), ("method", .str "Foo")] =
      (s, [Event.notify (.str "Foo") .null])) ∧
    (s.handle_frame [("id", .num 0), ("result", .str "ok")] =
      (s, [Event.logWarning "Invalid frame"])) ∧
    (∀ frame, Obj.get frame "src" = some (.str "") →
      (s.handle_frame frame).1.route.dst = s.route.dst) := by
  refine ⟨rfl, rfl, ?_⟩
  intro frame hsrc
  have hemp : ("" : String).isEmpty = true := rfl
  have htsrc : tget frame "src" = none := by
    simp [tget, hsrc, Val.truthy, hemp]
  have hdr := dispatch_route_and_warn (s.route_step frame).1 frame
  simp only [WsRPC.handle_frame]
  rw [hdr.1]
  simp [WsRPC.route_step, htsrc]

/-- Witness for C9: the truthiness behaviors at a concrete state, with the
empty-src case discharged at the concrete frame. -/
theorem c9_truthiness_witness :
    (wState.handle_frame [("id", .num 0), ("method", .str "Foo")] =
      (wState, [Event.notify (.str "Foo") .null])) ∧
    ((wState.handle_frame [("src", .str "")]).1.route.dst =
      wState.route.dst) :=
  ⟨(c9_truthiness wState).1,
   (c9_truthiness wState).2.2 [("src", .str "")] rfl⟩

/-- C4: teardown on transition to STOPPED.  With the client handle present
and any registry with distinct ids, `_rx_msgs` emits one `cancel` per
registered call (exactly once each, by key distinctness), clears the
registry, closes the transport exactly when it is not already closed,
clears the connection handle, and finally invokes the sink with the
distinguished connection-closed notification and null params. -/
theorem c4_teardown (s : WsRPC) (cl : WsClient)
    (hcl : s.client = some cl)
    (hdist : s.calls.Pairwise (fun a b => a.1 ≠ b.1)) :
    (s.rx_stop = some ({ s with calls := [], client := none },
      s.calls.map (fun kv => Event.cancel kv.1) ++
      (if cl.closed then [] else [Event.closeTransport]) ++
      [Event.notify (.str NOTIFY_WS_CLOSED) .null])) ∧
    (∀ kv ∈ s.calls,
      (s.calls.map (fun kv2 => Event.cancel kv2.1)).countP
        (fun e => match e with
          | .cancel i => i == kv.1
          | _ => false) = 1) := by
  constructor
  · simp [WsRPC.rx_stop, hcl]
  · intro kv hkv
    rw [List.countP_map]
    have hcomp : ((fun e => match e with
        | Event.cancel i => i == kv.1
        | _ => false) ∘ (fun kv2 : Int × RPCCall => Event.cancel kv2.1)) =
        fun kv2 : Int × RPCCall => kv2.1 == kv.1 := rfl
    rw [hcomp]
    exact countP_key hdist hkv

/-- Witness for C4: the two-pending-call state with an open client; call
id 1 is cancelled exactly once. -/
theorem c4_teardown_witness :
    (wState.rx_stop = some ({ wState with calls := [], client := none },
      wState.calls.map (fun kv => Event.cancel kv.1) ++
      (if ({ closed := false } : WsClient).closed then []
       else [Event.closeTransport]) ++
      [Event.notify (.str NOTIFY_WS_CLOSED) .null])) ∧
    ((wState.calls.map (fun kv2 : Int × RPCCall => Event.cancel kv2.1)).countP
      (fun e => match e with
        | .cancel i => i == (1 : Int)
        | _ => false) = 1) :=
  ⟨(c4_teardown wState { closed := false } rfl
      (by simp [wState, List.pairwise_cons])).1,
   (c4_teardown wState { closed := false } rfl
      (by simp [wState, List.pairwise_cons])).2 (1, wCallA)
      (List.mem_cons_self _ _)⟩

/-- C7: shape of every outbound call frame.  The frame contains exactly
`id` (the freshly allocated id), `method`, `src` (the local route tag),
then `auth` exactly when the effective credential is truthy (the
caller-supplied `params["auth"]` winning over the installed one), then
`params` exactly when the call keeps a params dict (with the `"auth"` key
moved out of it), then `dst` exactly when a peer tag has been learned. -/
theorem c7_request_frame_shape (s : WsRPC) (cl : WsClient) (method : String)
    (params : Option Obj) (hcl : s.client = some cl) :
    ((s.call_start method params).frame? = some (
      [("id", .num (s.call_id + 1)), ("method", .str method),
       ("src", optVal s.route.src)] ++
      (if (effAuth s.auth params).truthy
        then [("auth", effAuth s.auth params)] else []) ++
      (match effParams s.auth params with
       | some q => [("params", .obj q)]
       | none => []) ++
      (match s.route.dst with
       | some d => [("dst", d)]
       | none => []))) ∧
    (∀ q, effParams s.auth params = some q → Obj.get q "auth" = none) := by
  constructor
  · have hinit := init_after_inject s.auth params (s.call_id + 1) method
      s.route
    simp only [WsRPC.call_start, hcl, CallStart.frame?, hinit]
    rw [RPCCall.request_frame]
    cases hat : (effAuth s.auth params).truthy <;>
      cases hep : effParams s.auth params <;>
        cases hdst : s.route.dst <;>
          simp [hat, hep, hdst]
  · intro q hq
    cases params with
    | some p =>
      simp only [effParams, Option.some_inj] at hq
      rw [← hq]
      exact get_del p "auth"
    | none =>
      by_cases hA : s.auth.isEmpty
      · simp [effParams, hA] at hq
      · simp only [effParams, hA, if_false, Option.some_inj,
          Bool.false_eq_true] at hq
        rw [← hq]
        rfl

/-- Witness for C7: a call with an installed credential, a learned peer
tag, and caller params without an embedded credential. -/
theorem c7_request_frame_shape_witness :
    ((wAuthState.call_start "Switch.Set"
        (some [("on", .bool true)])).frame? = some (
      [("id", .num (wAuthState.call_id + 1)), ("method", .str "Switch.Set"),
       ("src", optVal wAuthState.route.src)] ++
      (if (effAuth wAuthState.auth (some [("on", .bool true)])).truthy
        then [("auth", effAuth wAuthState.auth (some [("on", .bool true)]))]
        else []) ++
      (match effParams wAuthState.auth (some [("on", .bool true)]) with
       | some q => [("params", .obj q)]
       | none => []) ++
      (match wAuthState.route.dst with
       | some d => [("dst", d)]
       | none => []))) ∧
    (Obj.get [("on", .bool true)] "auth" = none) :=
  ⟨(c7_request_frame_shape wAuthState { closed := false } "Switch.Set"
      (some [("on", .bool true)]) rfl).1,
   (c7_request_frame_shape wAuthState { closed := false } "Switch.Set"
      (some [("on", .bool true)]) rfl).2 [("on", .bool true)] rfl⟩

/-- C10: `call()` mutates the caller's params dict.  For a truthy
caller-supplied mapping that contains the key `"auth"` — or into which the
installed credential gets injected — the constructed call's `params`
attribute is that same shared dict with the `"auth"` entry deleted, so
after the call is issued the caller's dictionary no longer contains the
key.  (When the caller's dict is falsy the code substitutes a fresh `{}`
instead, which is why the mutated-dict claim needs a truthy dict.) -/
theorem c10_params_mutation (s : WsRPC) (cl : WsClient) (method : String)
    (p : Obj)
    (hcl : s.client = some cl)
    (hne : p ≠ [])
    (hkey : (Obj.get p "auth").isSome = true ∨ s.auth ≠ []) :
    ((s.call_start method (some p)).callParams? =
      some (some (Obj.del p "auth"))) ∧
    (Obj.get (Obj.del p "auth") "auth" = none) := by
  refine ⟨?_, get_del p "auth"⟩
  have hinit := init_after_inject s.auth (some p) (s.call_id + 1) method
    s.route
  simp only [WsRPC.call_start, hcl, CallStart.callParams?, hinit]
  simp [effParams]

/-- Witness for C10: caller params carrying an embedded credential lose
the `"auth"` entry. -/
theorem c10_params_mutation_witness :
    ((wState.call_start "Shelly.GetStatus"
        (some [("auth", .str "tok"), ("n", .num 1)])).callParams? =
      some (some (Obj.del [("auth", .str "tok"), ("n", .num 1)] "auth"))) ∧
    (Obj.get (Obj.del [("auth", .str "tok"), ("n", .num 1)] "auth") "auth" =
      none) :=
  c10_params_mutation wState { closed := false } "Shelly.GetStatus"
    [("auth", .str "tok"), ("n", .num 1)] rfl (by simp) (Or.inl rfl)

/-- C3: the credential computed by the authentication handshake.  For every
secret, realm, nonce, optional nonce-count and client nonce, the `response`
field equals the spec formula — SHA-256-hex (UTF-8, lowercase) of
`ha1 + ":" + nonce + ":" + nc + ":" + cnonce + ":auth:" + ha2` with
`ha1 = H("admin:" + realm + ":" + secret)` (username fixed to `"admin"`),
`ha2 = H("dummy_method:dummy_uri")`, and `nc` defaulting to `1` when the
challenge omits it.  Both sides are pure functions of the inputs, so the
result is deterministic and byte-for-byte reproducible. -/
theorem c3_auth_computation (password realm nonce : String) (nc : Option Int)
    (cnonce : Nat) :
    (Obj.get (connect_auth password realm nonce nc cnonce) "response" =
      some (.str (spec_response password realm nonce (nc.getD 1) cnonce))) ∧
    (Obj.get (connect_auth password realm nonce nc cnonce) "username" =
      some (.str "admin")) ∧
    (Obj.get (connect_auth password realm nonce nc cnonce) "algorithm" =
      some (.str "SHA-256")) := by
  refine ⟨?_, ?_, ?_⟩ <;> rfl

set_option maxRecDepth 100000 in
/-- Concrete evaluation of C3 at secret `"s"`, realm `"r"`, nonce `"n"`,
absent `nc` (defaulting to 1), cnonce 42; the digest matches the value
computed independently with Python's `hashlib.sha256`. -/
theorem c3_auth_computation_witness :
    (Obj.get (connect_auth "s" "r" "n" none 42) "response" =
      some (.str (spec_response "s" "r" "n" 1 42))) ∧
    (spec_response "s" "r" "n" 1 42 =
      "71e14de19e9e5378d0afdd06fe747a64d10e3ac1acc4dea45f831d1ce4012cd2") :=
  ⟨(c3_auth_computation "s" "r" "n" none 42).1, by rfl⟩

end Aioshelly
